import Mathlib

/-!
# Verification of `reference_code/nick/model/train_toy.py`

A shallow embedding of the training script `train_toy.py`.  The script is
sequential orchestration around an external deep-learning framework, so the
embedding models the script's own control flow exactly and abstracts the
framework's components (data loading, model forward passes, optimizer updates,
the learning-rate scheduler's internal policy) as parameters of an environment
record.  Every observable action of the script (library calls, prints, file
writes) is recorded as an event in a trace, and errors (`raise ValueError`,
`assert`, the `ZeroDivisionError` from `avg_loss /= num_batches` on an empty
loader) are surfaced through an explicit error type.

Python floats are modelled as rationals (`ℚ`), Python ints as `Int`.
-/

namespace TrainToy

/-- The kinds of errors the script can raise: the two `raise ValueError`
statements in `train`, the `ValueError` in `__main__` for `--view all`,
the `assert` on class counts, and the `ZeroDivisionError` produced by
`avg_loss /= num_batches` when a loader yields no batches. -/
inductive PyError where
  | valueError (msg : String)
  | assertionError (msg : String)
  | zeroDivisionError (msg : String)
deriving DecidableEq, Repr

/-- A JSON value, as produced by `json.dump(vars(args), out)`.  Floats become
rationals, `None` becomes `null`. -/
inductive JsonVal where
  | str (s : String)
  | int (i : Int)
  | num (q : ℚ)
  | bool (b : Bool)
  | null
deriving DecidableEq, Repr

/-- Which loss criterion `train` selects (`train_loader.dataset.weighted_loss`,
`valid_loader.dataset.weighted_loss`, `nn.MultiLabelSoftMarginLoss()` or
`nn.BCEWithLogitsLoss()`).  The numeric behaviour of each criterion is
supplied by the environment. -/
inductive CritKind where
  | weightedTrain
  | weightedValid
  | multiLabelSoftMargin
  | bceWithLogits
deriving DecidableEq, Repr

/-- Observable events of the script, in program order: external library calls,
console prints and file writes.  Numeric payloads record the values the script
passes at that point. -/
inductive Event where
  | loadData
  | constructModel (name : String) (numClasses : Int)
  | printNumClasses (n : Int)
  | modelCuda
  | selectCriterion (trainCrit validCrit : CritKind)
  | constructOptimizer (name : String)
  | constructScheduler
  | printStartEpoch (epoch : Nat)
  | zeroGrad
  | initHidden
  | forward
  | batchLossEv (loss : ℚ)
  | printTrainBatchLoss (loss : ℚ)
  | backward
  | optStepEv
  | printAvgTrainLoss (loss : ℚ)
  | printAvgValLoss (loss : ℚ)
  | plotSave
  | schedulerStep (epoch : Nat) (valLoss : ℚ)
  | saveCheckpoint (rundir fileName : String)
  | seedInit (seed : Int)
  | writeArgsJson (entries : List (String × JsonVal))
  | mkdirPlots
  | createWriter
deriving DecidableEq, Repr

/-- The parsed command-line arguments, one field per `parser.add_argument`
call in `get_parser`, in declaration order.  `action="store_true"` /
`action="store_false"` flags are `Bool`; `type=int` is `Int`; `type=float`
is `ℚ`; arguments without a default that may be absent are `Option`. -/
structure Args where
  datadir : String
  rundir : String
  comment : Option String
  view : String
  multilabel : Bool
  no_fours : Bool
  seed : Int
  model : String
  pretrained : Bool
  weighted_loss : Bool
  seq : Option String
  hidden_dim : Option Int
  optimizer : String
  learning_rate : ℚ
  weight_decay : ℚ
  dropout : ℚ
  batch_size : Int
  epochs : Int
  max_patience : Int
  verbose : Bool
  plot : Bool
  factor : ℚ
  toy : Bool
  rgb : Bool
  workers : Int
  extension : String
  fix_num_slices : Bool
  num_slices : Int
  fixing_method : String
  normalize : String
  scale : Int
  horizontal_flip : Bool
  rotate : Int
  shift : Int
  reverse : Bool
deriving DecidableEq, Repr

/-- The names of the command-line parameters added in `get_parser`, in
declaration order.  `argparse` stores attributes in this order, so
`vars(args)` enumerates its keys in this order. -/
def parserArgNames : List String :=
  ["datadir", "rundir", "comment", "view", "multilabel", "no_fours", "seed",
   "model", "pretrained", "weighted_loss", "seq", "hidden_dim",
   "optimizer", "learning_rate", "weight_decay", "dropout", "batch_size",
   "epochs", "max_patience", "verbose", "plot", "factor",
   "toy", "rgb", "workers", "extension", "fix_num_slices", "num_slices",
   "fixing_method", "normalize",
   "scale", "horizontal_flip", "rotate", "shift", "reverse"]

/-- The module-level table `optimizers = {'adam': optim.Adam, 'rmsprop':
optim.RMSprop}`: its key set, which is all the script consults
(`args.optimizer not in optimizers`, `optimizers[args.optimizer]`). -/
def optimizerKeys : List String := ["adam", "rmsprop"]

/-- The module-level list `seq_models = ['max', 'mean', 'lstm']` (declared
but never read after the membership check on it was commented out). -/
def seq_models : List String := ["max", "mean", "lstm"]

/-- `JsonVal` for an `Option String` field (`None` serialises to `null`). -/
def jsonOfOptStr : Option String → JsonVal
  | none => JsonVal.null
  | some s => JsonVal.str s

/-- `JsonVal` for an `Option Int` field. -/
def jsonOfOptInt : Option Int → JsonVal
  | none => JsonVal.null
  | some i => JsonVal.int i

/-- `vars(args)` as serialised by `json.dump`: every parsed parameter as a
key/value pair, in `argparse` attribute order. -/
def argsJson (a : Args) : List (String × JsonVal) :=
  [("datadir", JsonVal.str a.datadir),
   ("rundir", JsonVal.str a.rundir),
   ("comment", jsonOfOptStr a.comment),
   ("view", JsonVal.str a.view),
   ("multilabel", JsonVal.bool a.multilabel),
   ("no_fours", JsonVal.bool a.no_fours),
   ("seed", JsonVal.int a.seed),
   ("model", JsonVal.str a.model),
   ("pretrained", JsonVal.bool a.pretrained),
   ("weighted_loss", JsonVal.bool a.weighted_loss),
   ("seq", jsonOfOptStr a.seq),
   ("hidden_dim", jsonOfOptInt a.hidden_dim),
   ("optimizer", JsonVal.str a.optimizer),
   ("learning_rate", JsonVal.num a.learning_rate),
   ("weight_decay", JsonVal.num a.weight_decay),
   ("dropout", JsonVal.num a.dropout),
   ("batch_size", JsonVal.int a.batch_size),
   ("epochs", JsonVal.int a.epochs),
   ("max_patience", JsonVal.int a.max_patience),
   ("verbose", JsonVal.bool a.verbose),
   ("plot", JsonVal.bool a.plot),
   ("factor", JsonVal.num a.factor),
   ("toy", JsonVal.bool a.toy),
   ("rgb", JsonVal.bool a.rgb),
   ("workers", JsonVal.int a.workers),
   ("extension", JsonVal.str a.extension),
   ("fix_num_slices", JsonVal.bool a.fix_num_slices),
   ("num_slices", JsonVal.int a.num_slices),
   ("fixing_method", JsonVal.str a.fixing_method),
   ("normalize", JsonVal.str a.normalize),
   ("scale", JsonVal.int a.scale),
   ("horizontal_flip", JsonVal.bool a.horizontal_flip),
   ("rotate", JsonVal.int a.rotate),
   ("shift", JsonVal.int a.shift),
   ("reverse", JsonVal.bool a.reverse)]

/-- The dataset object behind a loader: the script reads
`loader.dataset.view` (to select the input tensor) and
`loader.dataset.num_classes`. -/
structure Dataset where
  view : String
  num_classes : Int
deriving DecidableEq, Repr

/-- A data loader: iterating it yields the batches in order.  The batch type
`B` is abstract (a batch is whatever `transform_data` consumes). -/
structure Loader (B : Type) where
  dataset : Dataset
  batches : List B

/-- The mutable state of a torch module as this script touches it:
its parameter vector (abstract type `P`), the `model.hidden` attribute the
script overwrites for LSTM models (the framework-supplied `init_hidden()`
value is modelled as `0`), and the train/eval mode flag set by
`model.train()` / `model.eval()`. -/
structure TorchModel (P : Type) where
  params : P
  hidden : Int
  training : Bool

/-- The external collaborators of the script, abstracted: the key set of the
model registry `model_dict` (populated by `from models import *`), the four
loaders returned by `load_data(args)`, the constructed model's initial
parameters and hidden state, the composite of `model.forward` and each
criterion as a loss value on the current parameters and a batch, and the
parameter update performed by one `optimizer.step()` of the named optimizer
after `batch_loss.backward()` produced the gradients of that batch loss. -/
structure Env (P B : Type) where
  model_dict : List String
  train_loader : Loader B
  valid_loader : Loader B
  test_loader : Loader B
  rad_loader : Loader B
  init_params : P
  init_hidden0 : Int
  criterion : CritKind → P → B → ℚ
  optStepF : String → P → ℚ → P

/-- The batch loop of `run_model`: for each batch, `optimizer.zero_grad()`
when training, `model.hidden = model.init_hidden()` when `seq == 'lstm'`,
the forward pass and criterion evaluation, `avg_loss += batch_loss`
(recorded as a `batchLossEv` event), then — when training — the optional
verbose print, `batch_loss.backward()` and `optimizer.step()`, and finally
`num_batches += 1`.  Returns the final model, batch count, loss sum and the
emitted events. -/
def runModelBatches {P B : Type} (crit : P → B → ℚ) (optF : P → ℚ → P)
    (trainFlag verbose : Bool) (seq : Option String) :
    List B → TorchModel P → Nat → ℚ → TorchModel P × Nat × ℚ × List Event
  | [], m, n, acc => (m, n, acc, [])
  | b :: rest, m, n, acc =>
    let evZ : List Event := if trainFlag then [Event.zeroGrad] else []
    let m1 : TorchModel P := if seq = some "lstm" then {m with hidden := 0} else m
    let evH : List Event := if seq = some "lstm" then [Event.initHidden] else []
    let loss := crit m1.params b
    let evPr : List Event :=
      if trainFlag && verbose then [Event.printTrainBatchLoss loss] else []
    let m2 : TorchModel P :=
      if trainFlag then {m1 with params := optF m1.params loss} else m1
    let evB : List Event := if trainFlag then [Event.backward, Event.optStepEv] else []
    let out := runModelBatches crit optF trainFlag verbose seq rest m2 (n + 1) (acc + loss)
    (out.1, out.2.1, out.2.2.1,
     evZ ++ evH ++ [Event.forward, Event.batchLossEv loss] ++ evPr ++ evB ++ out.2.2.2)

/-- `run_model`: sets the module mode (`model.train()` / `model.eval()`),
runs the batch loop, then performs `avg_loss /= num_batches` —
a `ZeroDivisionError` when no batch was seen — and returns the average loss
(`avg_loss.data[0]`).  The unused `writer`, `epoch` and `multilabel`
parameters of the Python signature, and the `complete_predictions` /
`complete_labels` concatenations (computed but never consumed), are omitted. -/
def run_model {P B : Type} (crit : P → B → ℚ) (optF : P → ℚ → P)
    (model : TorchModel P) (loader : Loader B)
    (trainFlag verbose : Bool) (seq : Option String) :
    TorchModel P × List Event × Except PyError ℚ :=
  let out := runModelBatches crit optF trainFlag verbose seq loader.batches
      {model with training := trainFlag} 0 0
  (out.1, out.2.2.2,
   if out.2.1 = 0 then Except.error (PyError.zeroDivisionError "float division by zero")
   else Except.ok (out.2.2.1 / (out.2.1 : ℚ)))

/-- The criterion pair `(train_criterion, valid_criterion)` selected in
`train`: the datasets' weighted losses under `--weighted_loss`, otherwise
`MultiLabelSoftMarginLoss` under `--multilabel`, otherwise
`BCEWithLogitsLoss`. -/
def critKinds (a : Args) : CritKind × CritKind :=
  if a.weighted_loss then (CritKind.weightedTrain, CritKind.weightedValid)
  else if a.multilabel then (CritKind.multiLabelSoftMargin, CritKind.multiLabelSoftMargin)
  else (CritKind.bceWithLogits, CritKind.bceWithLogits)

/-- The `args.seq = 'lstm'` mutation performed in `train` when the selected
model is `lrcn` or `mtolstm`. -/
def applySeq (a : Args) : Args :=
  if a.model = "lrcn" ∨ a.model = "mtolstm" then {a with seq := some "lstm"} else a

/-- The condition of the `assert` in `train`:
`train_loader.dataset.num_classes == valid_loader.dataset.num_classes ==
test_loader.dataset.num_classes` (Python chained comparison; the
`rad_loader` is not part of the chain). -/
def countsEq {P B : Type} (env : Env P B) : Prop :=
  env.train_loader.dataset.num_classes = env.valid_loader.dataset.num_classes ∧
    env.valid_loader.dataset.num_classes = env.test_loader.dataset.num_classes

instance {P B : Type} (env : Env P B) : Decidable (countsEq env) :=
  inferInstanceAs (Decidable (_ ∧ _))

/-- The `for epoch in range(args.epochs)` loop of `train`: per epoch, the
start-of-epoch print, the training pass (`run_model` with `train=True`), the
average-training-loss print, the validation pass (`run_model` with the
defaults `train=False, optimizer=None, verbose=False` — the script passes no
`verbose` there, and `args.verbose` only reaches the training pass), the
average-validation-loss print, the optional plot save, `scheduler.step(val_loss)`,
the (event-free) `best_val_loss` update, and
`torch.save(model.state_dict(), Path(args.rundir) / file_name)` with
`file_name = f'val{val_loss}_train{train_loss}_epoch{epoch+1}'`.
The first argument counts the remaining epochs, the second is the current
epoch index. -/
def trainLoopAux {P B : Type} (env : Env P B) (a : Args) (kinds : CritKind × CritKind) :
    Nat → Nat → TorchModel P → List Event × Option PyError
  | 0, _, _ => ([], none)
  | k + 1, e, m =>
    let outT := run_model (env.criterion kinds.1) (env.optStepF a.optimizer) m
        env.train_loader true a.verbose a.seq
    match outT.2.2 with
    | Except.error err => ([Event.printStartEpoch e] ++ outT.2.1, some err)
    | Except.ok trainLoss =>
      let outV := run_model (env.criterion kinds.2) (env.optStepF a.optimizer) outT.1
          env.valid_loader false false a.seq
      match outV.2.2 with
      | Except.error err =>
        ([Event.printStartEpoch e] ++ outT.2.1
          ++ [Event.printAvgTrainLoss trainLoss] ++ outV.2.1, some err)
      | Except.ok valLoss =>
        let rest := trainLoopAux env a kinds k (e + 1) outV.1
        ([Event.printStartEpoch e] ++ outT.2.1
          ++ [Event.printAvgTrainLoss trainLoss] ++ outV.2.1
          ++ [Event.printAvgValLoss valLoss]
          ++ (if a.plot then [Event.plotSave] else [])
          ++ [Event.schedulerStep e valLoss,
              Event.saveCheckpoint a.rundir
                ("val" ++ toString valLoss ++ "_train" ++ toString trainLoss
                  ++ "_epoch" ++ toString (e + 1))]
          ++ rest.1, rest.2)

/-- The `train(args, writer)` function: `load_data`, the model-registry
check (`raise ValueError(f"{args.model} model not supported")`), the
`args.seq` mutation for `lrcn`/`mtolstm`, the class-count `assert`, model
construction and `.cuda()`, the `print('num classes: ', ...)`, criterion
selection, the optimizer-table check
(`raise ValueError(f"{args.optimizer} optimizer not supported")`),
optimizer and scheduler construction, and the epoch loop.
`range(args.epochs)` of the Python `int` is empty for non-positive values,
hence `Int.toNat`. -/
def train {P B : Type} (env : Env P B) (a0 : Args) : List Event × Option PyError :=
  let evL : List Event := [Event.loadData]
  if a0.model ∈ env.model_dict then
    let a := applySeq a0
    if countsEq env then
      let model0 : TorchModel P :=
        { params := env.init_params, hidden := env.init_hidden0, training := true }
      let kinds := critKinds a
      let evPre := evL ++
        [Event.constructModel a.model env.train_loader.dataset.num_classes,
         Event.printNumClasses env.train_loader.dataset.num_classes,
         Event.modelCuda,
         Event.selectCriterion kinds.1 kinds.2]
      if a.optimizer ∈ optimizerKeys then
        let evPre := evPre ++ [Event.constructOptimizer a.optimizer, Event.constructScheduler]
        let out := trainLoopAux env a kinds a.epochs.toNat 0 model0
        (evPre ++ out.1, out.2)
      else (evPre, some (PyError.valueError (a.optimizer ++ " optimizer not supported")))
    else (evL, some (PyError.assertionError "Different number of classes in data splits"))
  else (evL, some (PyError.valueError (a0.model ++ " model not supported")))

/-- The `__main__` block: parse, `args.verbose = False`, the three seed
initialisations, `json.dump(vars(args))` into `args.json`, the optional
`plots` directory creation, `SummaryWriter` construction (its `comment`
string is framework-internal and carries no payload here), the
`args.view == 'all'` check
(`raise ValueError("Multiview not yet implemented for train script")`),
and the call to `train`. -/
def mainScript {P B : Type} (env : Env P B) (a0 : Args) : List Event × Option PyError :=
  let a := {a0 with verbose := false}
  let evPre := [Event.seedInit a.seed, Event.writeArgsJson (argsJson a)]
    ++ (if a.plot then [Event.mkdirPlots] else []) ++ [Event.createWriter]
  if a.view = "all" then
    (evPre, some (PyError.valueError "Multiview not yet implemented for train script"))
  else
    let out := train env a
    (evPre ++ out.1, out.2)

/-! ## Specification-side descriptions of the epoch loop

The following definitions give a closed form for the state, losses and
trace of each epoch, to be proved equal to what `trainLoopAux` produces. -/

/-- The model state after one full epoch starting from `m`: the training
pass followed by the validation pass. -/
def stepEpoch {P B : Type} (env : Env P B) (a : Args) (kinds : CritKind × CritKind)
    (m : TorchModel P) : TorchModel P :=
  (run_model (env.criterion kinds.2) (env.optStepF a.optimizer)
    (run_model (env.criterion kinds.1) (env.optStepF a.optimizer) m
      env.train_loader true a.verbose a.seq).1
    env.valid_loader false false a.seq).1

/-- The model state at the start of epoch `e` (after the `args.seq`
mutation, starting from the freshly constructed model). -/
def epochModel {P B : Type} (env : Env P B) (a : Args) (e : Nat) : TorchModel P :=
  (stepEpoch env (applySeq a) (critKinds (applySeq a)))^[e]
    { params := env.init_params, hidden := env.init_hidden0, training := true }

/-- The output of epoch `e`'s training pass. -/
def trainPassOut {P B : Type} (env : Env P B) (a : Args) (e : Nat) :
    TorchModel P × List Event × Except PyError ℚ :=
  run_model (env.criterion (critKinds (applySeq a)).1)
    (env.optStepF (applySeq a).optimizer) (epochModel env a e)
    env.train_loader true (applySeq a).verbose (applySeq a).seq

/-- The output of epoch `e`'s validation pass. -/
def validPassOut {P B : Type} (env : Env P B) (a : Args) (e : Nat) :
    TorchModel P × List Event × Except PyError ℚ :=
  run_model (env.criterion (critKinds (applySeq a)).2)
    (env.optStepF (applySeq a).optimizer) (trainPassOut env a e).1
    env.valid_loader false false (applySeq a).seq

/-- The events of epoch `e`'s training pass. -/
def trainPassTrace {P B : Type} (env : Env P B) (a : Args) (e : Nat) : List Event :=
  (trainPassOut env a e).2.1

/-- The events of epoch `e`'s validation pass. -/
def validPassTrace {P B : Type} (env : Env P B) (a : Args) (e : Nat) : List Event :=
  (validPassOut env a e).2.1

/-- Epoch `e`'s average training loss (loss sum over batch count; only
meaningful when the training loader is non-empty, which is when the loop
reaches the division). -/
def epochTrainLoss {P B : Type} (env : Env P B) (a : Args) (e : Nat) : ℚ :=
  let out := trainPassOut env a e
  match out.2.2 with
  | Except.ok q => q
  | Except.error _ => 0

/-- Epoch `e`'s average validation loss. -/
def epochValLoss {P B : Type} (env : Env P B) (a : Args) (e : Nat) : ℚ :=
  let out := validPassOut env a e
  match out.2.2 with
  | Except.ok q => q
  | Except.error _ => 0

/-- The checkpoint file name written at the end of epoch `e`:
`f'val{val_loss}_train{train_loss}_epoch{epoch+1}'`. -/
def ckptName {P B : Type} (env : Env P B) (a : Args) (e : Nat) : String :=
  "val" ++ toString (epochValLoss env a e) ++ "_train" ++ toString (epochTrainLoss env a e)
    ++ "_epoch" ++ toString (e + 1)

/-- Concatenation of per-epoch event blocks for epochs `e, e+1, …, e+k-1`. -/
def epochConcat (f : Nat → List Event) : Nat → Nat → List Event
  | _, 0 => []
  | e, k + 1 => f e ++ epochConcat f (e + 1) k

/-- The full event block of epoch `e`, in program order. -/
def epochBlock {P B : Type} (env : Env P B) (a : Args) (e : Nat) : List Event :=
  [Event.printStartEpoch e] ++ trainPassTrace env a e
    ++ [Event.printAvgTrainLoss (epochTrainLoss env a e)] ++ validPassTrace env a e
    ++ [Event.printAvgValLoss (epochValLoss env a e)]
    ++ (if a.plot then [Event.plotSave] else [])
    ++ [Event.schedulerStep e (epochValLoss env a e),
        Event.saveCheckpoint a.rundir (ckptName env a e)]

/-! ## Event classifiers -/

/-- The value carried by a `batchLossEv` event. -/
def batchLossVal : Event → Option ℚ
  | Event.batchLossEv q => some q
  | _ => none

/-- Events that touch gradients or parameters: `optimizer.zero_grad()`,
`loss.backward()`, `optimizer.step()`. -/
def touchesGrad : Event → Bool
  | Event.zeroGrad => true
  | Event.backward => true
  | Event.optStepEv => true
  | _ => false

/-- Events that can be emitted by the batch loop of `run_model`. -/
def isBatchEvent : Event → Bool
  | Event.zeroGrad => true
  | Event.initHidden => true
  | Event.forward => true
  | Event.batchLossEv _ => true
  | Event.printTrainBatchLoss _ => true
  | Event.backward => true
  | Event.optStepEv => true
  | _ => false

/-- Recognises `schedulerStep` events. -/
def isSchedStep : Event → Bool
  | Event.schedulerStep _ _ => true
  | _ => false

/-- Recognises `saveCheckpoint` events. -/
def isSaveCkpt : Event → Bool
  | Event.saveCheckpoint _ _ => true
  | _ => false

/-- Recognises `constructModel` events. -/
def isConstructModel : Event → Bool
  | Event.constructModel _ _ => true
  | _ => false

/-- Recognises `constructOptimizer` events. -/
def isConstructOpt : Event → Bool
  | Event.constructOptimizer _ => true
  | _ => false

/-- Is the result an explicitly raised error (`raise ValueError` or a failed
`assert`), as opposed to normal termination or the implicit
`ZeroDivisionError`? -/
def isExplicitError : Option PyError → Bool
  | some (PyError.valueError _) => true
  | some (PyError.assertionError _) => true
  | _ => false

/-- Is the result a raised `ValueError`? -/
def isValueErrorRes : Option PyError → Bool
  | some (PyError.valueError _) => true
  | _ => false

/-- Is the result a raised `AssertionError`? -/
def isAssertionErrorRes : Option PyError → Bool
  | some (PyError.assertionError _) => true
  | _ => false

/-! ## Concrete instances for witnesses and counterexamples -/

/-- A concrete loader over rational "batches". -/
def loaderOf (n : Int) (bs : List ℚ) : Loader ℚ :=
  { dataset := { view := "sagittal", num_classes := n }, batches := bs }

/-- A concrete argument set (the parser's defaults, with required paths
filled in and two epochs). -/
def argsBase : Args :=
  { datadir := "d", rundir := "r", comment := none, view := "sagittal",
    multilabel := false, no_fours := false, seed := 123, model := "alexnet",
    pretrained := false, weighted_loss := false, seq := none, hidden_dim := none,
    optimizer := "adam", learning_rate := 1/1000, weight_decay := 1/100,
    dropout := 0, batch_size := 1, epochs := 2, max_patience := 5,
    verbose := false, plot := false, factor := 3/10, toy := false, rgb := false,
    workers := 8, extension := "npy", fix_num_slices := false, num_slices := 35,
    fixing_method := "inner", normalize := "none", scale := 256,
    horizontal_flip := false, rotate := 0, shift := 0, reverse := false }

/-- A concrete environment: one supported model, equal class counts,
one training batch and one validation batch. -/
def envBase : Env ℚ ℚ :=
  { model_dict := ["alexnet", "lrcn"],
    train_loader := loaderOf 2 [1],
    valid_loader := loaderOf 2 [2],
    test_loader := loaderOf 2 [],
    rad_loader := loaderOf 2 [],
    init_params := 0,
    init_hidden0 := 0,
    criterion := fun _ p b => p + b,
    optStepF := fun _ p l => p + l }

/-- A concrete composite forward-plus-criterion function. -/
def critW : ℚ → ℚ → ℚ := fun p b => p + b

/-- A concrete optimizer-step parameter update. -/
def optW : ℚ → ℚ → ℚ := fun p l => p + l

/-- A concrete freshly constructed model. -/
def modelW : TorchModel ℚ := { params := 0, hidden := 0, training := true }

/-! ## Lemmas about the batch loop -/

/-- Membership in a list that an `if` guards against `[]`. -/
lemma mem_ite_nil {α : Type} {c : Prop} [Decidable c] {l : List α} {x : α}
    (h : x ∈ if c then l else []) : x ∈ l := by
  split at h
  · exact h
  · cases h

/-- `num_batches` counts exactly the batches of the loader. -/
lemma runModelBatches_count {P B : Type} (crit : P → B → ℚ) (optF : P → ℚ → P)
    (t v : Bool) (s : Option String) :
    ∀ (bs : List B) (m : TorchModel P) (n : Nat) (acc : ℚ),
      (runModelBatches crit optF t v s bs m n acc).2.1 = n + bs.length := by
  intro bs
  induction bs with
  | nil => intro m n acc; rfl
  | cons b rest ih =>
    intro m n acc
    simp only [runModelBatches, ih, List.length_cons]
    omega

/-- Every event the batch loop emits is a batch event. -/
lemma runModelBatches_events {P B : Type} (crit : P → B → ℚ) (optF : P → ℚ → P)
    (t v : Bool) (s : Option String) :
    ∀ (bs : List B) (m : TorchModel P) (n : Nat) (acc : ℚ),
      ∀ ev ∈ (runModelBatches crit optF t v s bs m n acc).2.2.2, isBatchEvent ev = true := by
  intro bs
  induction bs with
  | nil => intro m n acc ev h; simp [runModelBatches] at h
  | cons b rest ih =>
    intro m n acc ev h
    simp only [runModelBatches] at h
    rcases List.mem_append.1 h with h | h
    · rcases List.mem_append.1 h with h | h
      · rcases List.mem_append.1 h with h | h
        · rcases List.mem_append.1 h with h | h
          · rcases List.mem_append.1 h with h | h
            · obtain rfl := List.mem_singleton.1 (mem_ite_nil h); rfl
            · obtain rfl := List.mem_singleton.1 (mem_ite_nil h); rfl
          · rcases List.mem_cons.1 h with rfl | h
            · rfl
            · obtain rfl := List.mem_singleton.1 h; rfl
        · obtain rfl := List.mem_singleton.1 (mem_ite_nil h); rfl
      · rcases List.mem_cons.1 (mem_ite_nil h) with rfl | h
        · rfl
        · obtain rfl := List.mem_singleton.1 h; rfl
    · exact ih _ _ _ ev h

/-- Guarded single-event lists carry no recorded batch loss. -/
lemma filterMap_loss_ite_zeroGrad {c : Prop} [Decidable c] :
    (if c then [Event.zeroGrad] else []).filterMap batchLossVal = [] := by
  split <;> rfl

/-- Guarded `initHidden` lists carry no recorded batch loss. -/
lemma filterMap_loss_ite_initHidden {c : Prop} [Decidable c] :
    (if c then [Event.initHidden] else []).filterMap batchLossVal = [] := by
  split <;> rfl

/-- Guarded verbose prints carry no recorded batch loss. -/
lemma filterMap_loss_ite_print {c : Prop} [Decidable c] (q : ℚ) :
    (if c then [Event.printTrainBatchLoss q] else []).filterMap batchLossVal = [] := by
  split <;> rfl

/-- Guarded backward/step pairs carry no recorded batch loss. -/
lemma filterMap_loss_ite_backward {c : Prop} [Decidable c] :
    (if c then [Event.backward, Event.optStepEv] else []).filterMap batchLossVal = [] := by
  split <;> rfl

/-- The loss accumulator equals its initial value plus the sum of the losses
recorded in the trace, and the trace records one loss per batch. -/
lemma runModelBatches_losses {P B : Type} (crit : P → B → ℚ) (optF : P → ℚ → P)
    (t v : Bool) (s : Option String) :
    ∀ (bs : List B) (m : TorchModel P) (n : Nat) (acc : ℚ),
      (runModelBatches crit optF t v s bs m n acc).2.2.1 =
        acc + (((runModelBatches crit optF t v s bs m n acc).2.2.2).filterMap
          batchLossVal).sum ∧
      (((runModelBatches crit optF t v s bs m n acc).2.2.2).filterMap
          batchLossVal).length = bs.length := by
  intro bs
  induction bs with
  | nil => intro m n acc; simp [runModelBatches]
  | cons b rest ih =>
    intro m n acc
    have ih1 : ∀ (m' : TorchModel P) (n' : Nat) (acc' : ℚ),
        (runModelBatches crit optF t v s rest m' n' acc').2.2.1 =
          acc' + (((runModelBatches crit optF t v s rest m' n' acc').2.2.2).filterMap
            batchLossVal).sum := fun m' n' acc' => (ih m' n' acc').1
    have ih2 : ∀ (m' : TorchModel P) (n' : Nat) (acc' : ℚ),
        (((runModelBatches crit optF t v s rest m' n' acc').2.2.2).filterMap
            batchLossVal).length = rest.length := fun m' n' acc' => (ih m' n' acc').2
    simp only [runModelBatches, List.filterMap_append, filterMap_loss_ite_zeroGrad,
      filterMap_loss_ite_initHidden, filterMap_loss_ite_print, filterMap_loss_ite_backward,
      List.filterMap_cons, List.filterMap_nil, batchLossVal, List.nil_append,
      List.append_nil, List.sum_cons, List.sum_append, List.sum_nil, List.length_cons,
      List.length_append, List.length_nil, ih1, ih2]
    constructor
    · ring
    · omega

/-- With `train=False`, the batch loop never updates the parameters. -/
lemma runModelBatches_params_eval {P B : Type} (crit : P → B → ℚ) (optF : P → ℚ → P)
    (v : Bool) (s : Option String) :
    ∀ (bs : List B) (m : TorchModel P) (n : Nat) (acc : ℚ),
      (runModelBatches crit optF false v s bs m n acc).1.params = m.params := by
  intro bs
  induction bs with
  | nil => intro m n acc; rfl
  | cons b rest ih =>
    intro m n acc
    simp only [runModelBatches, Bool.false_eq_true, if_false, Bool.false_and, ih]
    split <;> rfl

/-- `initHidden` does not touch gradients. -/
lemma countP_grad_init : List.countP touchesGrad [Event.initHidden] = 0 := rfl

/-- Forward/loss events do not touch gradients. -/
lemma countP_grad_fb (q : ℚ) :
    List.countP touchesGrad [Event.forward, Event.batchLossEv q] = 0 := rfl

/-- With `train=False`, the batch loop emits no gradient-touching event
(`zero_grad`, `backward`, `optimizer.step`). -/
lemma runModelBatches_no_grad {P B : Type} (crit : P → B → ℚ) (optF : P → ℚ → P)
    (v : Bool) (s : Option String) :
    ∀ (bs : List B) (m : TorchModel P) (n : Nat) (acc : ℚ),
      ((runModelBatches crit optF false v s bs m n acc).2.2.2).countP
        touchesGrad = 0 := by
  intro bs
  induction bs with
  | nil => intro m n acc; rfl
  | cons b rest ih =>
    intro m n acc
    simp only [runModelBatches, Bool.false_eq_true, if_false, Bool.false_and,
      List.countP_append, List.countP_nil, countP_grad_fb, ih]
    split <;> simp [countP_grad_init]

/-! ## Lemmas about `run_model` -/

/-- C9: `run_model` is only total for non-empty loaders: on a loader that
yields zero batches, `num_batches` stays `0` and `avg_loss /= num_batches`
divides by zero, so `run_model` fails with a `ZeroDivisionError` instead of
returning a value; this error case is reachable exactly when the loader is
empty. -/
theorem run_model_empty_loader_error {P B : Type} (crit : P → B → ℚ) (optF : P → ℚ → P)
    (m : TorchModel P) (loader : Loader B) (t v : Bool) (s : Option String) :
    (run_model crit optF m loader t v s).2.2 =
        Except.error (PyError.zeroDivisionError "float division by zero") ↔
      loader.batches = [] := by
  have hc := runModelBatches_count crit optF t v s loader.batches
    {m with training := t} 0 0
  simp only [run_model]
  rw [hc]
  simp [List.length_eq_zero]

/-- On a non-empty loader, the batch count is non-zero. -/
lemma runModelBatches_count_ne {P B : Type} (crit : P → B → ℚ) (optF : P → ℚ → P)
    (m : TorchModel P) (loader : Loader B) (t v : Bool) (s : Option String)
    (h : loader.batches ≠ []) :
    ¬ ((runModelBatches crit optF t v s loader.batches
        {m with training := t} 0 0).2.1 = 0) := by
  rw [runModelBatches_count]
  simpa [List.length_eq_zero] using h

/-- On a non-empty loader, `run_model` returns the accumulated loss divided
by the batch count. -/
lemma run_model_ok_val {P B : Type} (crit : P → B → ℚ) (optF : P → ℚ → P)
    (m : TorchModel P) (loader : Loader B) (t v : Bool) (s : Option String)
    (h : loader.batches ≠ []) :
    (run_model crit optF m loader t v s).2.2 =
      Except.ok ((runModelBatches crit optF t v s loader.batches
          {m with training := t} 0 0).2.2.1 /
        ((runModelBatches crit optF t v s loader.batches
          {m with training := t} 0 0).2.1 : ℚ)) := by
  simp only [run_model]
  rw [if_neg (runModelBatches_count_ne crit optF m loader t v s h)]

/-- On a non-empty loader, `run_model` returns a value. -/
lemma run_model_isOk_of_ne {P B : Type} (crit : P → B → ℚ) (optF : P → ℚ → P)
    (m : TorchModel P) (loader : Loader B) (t v : Bool) (s : Option String)
    (h : loader.batches ≠ []) :
    ∃ q : ℚ, (run_model crit optF m loader t v s).2.2 = Except.ok q :=
  ⟨_, run_model_ok_val crit optF m loader t v s h⟩

/-- C5: for every non-empty loader, `run_model` returns the arithmetic mean
of the per-batch criterion losses: it accumulates each batch's loss into a
running sum and divides by the number of batches once at the end, so the
returned value equals the sum of the recorded per-batch losses divided by
their count, and one loss is recorded per batch of the loader. -/
theorem run_model_returns_mean {P B : Type} (crit : P → B → ℚ) (optF : P → ℚ → P)
    (m : TorchModel P) (loader : Loader B) (t v : Bool) (s : Option String)
    (h : loader.batches ≠ []) :
    (run_model crit optF m loader t v s).2.2 =
        Except.ok ((((run_model crit optF m loader t v s).2.1).filterMap
            batchLossVal).sum /
          ((((run_model crit optF m loader t v s).2.1).filterMap
            batchLossVal).length : ℚ)) ∧
      (((run_model crit optF m loader t v s).2.1).filterMap batchLossVal).length =
        loader.batches.length := by
  have hc := runModelBatches_count crit optF t v s loader.batches
    {m with training := t} 0 0
  obtain ⟨hsum, hlen⟩ := runModelBatches_losses crit optF t v s loader.batches
    {m with training := t} 0 0
  have hlen' : (((run_model crit optF m loader t v s).2.1).filterMap
      batchLossVal).length = loader.batches.length := hlen
  refine ⟨?_, hlen'⟩
  simp only [run_model]
  rw [if_neg (runModelBatches_count_ne crit optF m loader t v s h)]
  rw [hsum, hc, hlen]
  norm_num

/-- C6: `run_model` performs backpropagation and an optimizer step only when
called with `train=True`; with `train=False` it calls neither
`loss.backward()` nor `optimizer.step()` and does not zero gradients, so the
model's parameters are unchanged by an evaluation pass. -/
theorem run_model_eval_pass_frame {P B : Type} (crit : P → B → ℚ) (optF : P → ℚ → P)
    (m : TorchModel P) (loader : Loader B) (v : Bool) (s : Option String) :
    (run_model crit optF m loader false v s).1.params = m.params ∧
      ((run_model crit optF m loader false v s).2.1).countP touchesGrad = 0 := by
  exact ⟨runModelBatches_params_eval crit optF v s loader.batches _ 0 0,
    runModelBatches_no_grad crit optF v s loader.batches _ 0 0⟩

/-- Every event `run_model` emits is a batch event. -/
lemma run_model_events {P B : Type} (crit : P → B → ℚ) (optF : P → ℚ → P)
    (m : TorchModel P) (loader : Loader B) (t v : Bool) (s : Option String) :
    ∀ ev ∈ (run_model crit optF m loader t v s).2.1, isBatchEvent ev = true :=
  fun ev h => runModelBatches_events crit optF t v s loader.batches _ 0 0 ev h

/-- Any error `run_model` returns is the division-by-zero error. -/
lemma run_model_error_eq {P B : Type} (crit : P → B → ℚ) (optF : P → ℚ → P)
    (m : TorchModel P) (loader : Loader B) (t v : Bool) (s : Option String)
    (err : PyError) (h : (run_model crit optF m loader t v s).2.2 = Except.error err) :
    err = PyError.zeroDivisionError "float division by zero" := by
  simp only [run_model] at h
  split at h
  · exact (Except.error.injEq _ _ ▸ h.symm).symm ▸ rfl
  · cases h

/-! ## Lemmas about the epoch loop -/

/-- The `args.seq` mutation leaves `rundir` unchanged. -/
lemma applySeq_rundir (a : Args) : (applySeq a).rundir = a.rundir := by
  unfold applySeq; split <;> rfl

/-- The `args.seq` mutation leaves `plot` unchanged. -/
lemma applySeq_plot (a : Args) : (applySeq a).plot = a.plot := by
  unfold applySeq; split <;> rfl

/-- The `args.seq` mutation leaves `optimizer` unchanged. -/
lemma applySeq_optimizer (a : Args) : (applySeq a).optimizer = a.optimizer := by
  unfold applySeq; split <;> rfl

/-- The `args.seq` mutation leaves `epochs` unchanged. -/
lemma applySeq_epochs (a : Args) : (applySeq a).epochs = a.epochs := by
  unfold applySeq; split <;> rfl

/-- The `args.seq` mutation leaves `model` unchanged. -/
lemma applySeq_model (a : Args) : (applySeq a).model = a.model := by
  unfold applySeq; split <;> rfl

/-- The `args.seq` mutation leaves the criterion choice unchanged. -/
lemma critKinds_applySeq (a : Args) : critKinds (applySeq a) = critKinds a := by
  unfold applySeq critKinds; split <;> rfl

/-- On a non-empty training loader, the training pass of epoch `e` returns
`epochTrainLoss`. -/
lemma trainPassOut_ok {P B : Type} (env : Env P B) (a : Args) (e : Nat)
    (hT : env.train_loader.batches ≠ []) :
    (trainPassOut env a e).2.2 = Except.ok (epochTrainLoss env a e) := by
  obtain ⟨q, hq⟩ := run_model_isOk_of_ne (env.criterion (critKinds (applySeq a)).1)
    (env.optStepF (applySeq a).optimizer) (epochModel env a e) env.train_loader
    true (applySeq a).verbose (applySeq a).seq hT
  have hq' : (trainPassOut env a e).2.2 = Except.ok q := hq
  simp only [epochTrainLoss, hq']

/-- On a non-empty validation loader, the validation pass of epoch `e`
returns `epochValLoss`. -/
lemma validPassOut_ok {P B : Type} (env : Env P B) (a : Args) (e : Nat)
    (hV : env.valid_loader.batches ≠ []) :
    (validPassOut env a e).2.2 = Except.ok (epochValLoss env a e) := by
  obtain ⟨q, hq⟩ := run_model_isOk_of_ne (env.criterion (critKinds (applySeq a)).2)
    (env.optStepF (applySeq a).optimizer) (trainPassOut env a e).1 env.valid_loader
    false false (applySeq a).seq hV
  have hq' : (validPassOut env a e).2.2 = Except.ok q := hq
  simp only [epochValLoss, hq']

/-- The model at the start of epoch `e + 1` is the model after epoch `e`'s
two passes. -/
lemma epochModel_succ {P B : Type} (env : Env P B) (a : Args) (e : Nat) :
    epochModel env a (e + 1) = (validPassOut env a e).1 := by
  rw [epochModel, Function.iterate_succ_apply']
  rfl

/-- The epoch loop, run on non-empty loaders from the epoch-`e` model,
produces exactly the concatenation of the per-epoch blocks and no error. -/
lemma trainLoopAux_spec {P B : Type} (env : Env P B) (a : Args)
    (hT : env.train_loader.batches ≠ []) (hV : env.valid_loader.batches ≠ []) :
    ∀ (k e : Nat),
      trainLoopAux env (applySeq a) (critKinds (applySeq a)) k e (epochModel env a e) =
        (epochConcat (epochBlock env a) e k, none) := by
  intro k
  induction k with
  | zero => intro e; rfl
  | succ k ih =>
    intro e
    have h1 := trainPassOut_ok env a e hT
    have h2 := validPassOut_ok env a e hV
    have h3 := epochModel_succ env a e
    simp only [trainPassOut] at h1
    simp only [validPassOut, trainPassOut] at h2 h3
    simp only [trainLoopAux, h1, h2]
    rw [← h3]
    rw [ih (e + 1)]
    simp only [epochConcat, epochBlock, trainPassTrace, validPassTrace, trainPassOut,
      validPassOut, ckptName, applySeq_rundir, applySeq_plot, List.append_assoc,
      List.cons_append, List.nil_append]

/-- The epoch loop either finishes cleanly or propagates a division-by-zero
error from `run_model`; it raises nothing of its own. -/
lemma trainLoopAux_err {P B : Type} (env : Env P B) (a : Args) (kinds : CritKind × CritKind) :
    ∀ (k e : Nat) (m : TorchModel P),
      (trainLoopAux env a kinds k e m).2 = none ∨
        (trainLoopAux env a kinds k e m).2 =
          some (PyError.zeroDivisionError "float division by zero") := by
  intro k
  induction k with
  | zero => intro e m; left; rfl
  | succ k ih =>
    intro e m
    simp only [trainLoopAux]
    cases hT : (run_model (env.criterion kinds.1) (env.optStepF a.optimizer) m
        env.train_loader true a.verbose a.seq).2.2 with
    | error err =>
      right
      have herr := run_model_error_eq _ _ _ _ _ _ _ err hT
      subst herr
      rfl
    | ok trainLoss =>
      cases hV : (run_model (env.criterion kinds.2) (env.optStepF a.optimizer)
          (run_model (env.criterion kinds.1) (env.optStepF a.optimizer) m
            env.train_loader true a.verbose a.seq).1
          env.valid_loader false false a.seq).2.2 with
      | error err =>
        right
        have herr := run_model_error_eq _ _ _ _ _ _ _ err hV
        subst herr
        rfl
      | ok valLoss =>
        exact ih (e + 1) _

/-- Counting with a predicate that is false on every batch event and every
loop-only event gives zero over any epoch-loop trace. -/
lemma trainLoopAux_countP_zero {P B : Type} (env : Env P B) (a : Args)
    (kinds : CritKind × CritKind) (p : Event → Bool)
    (hbatch : ∀ ev, isBatchEvent ev = true → p ev = false)
    (hps : ∀ e, p (Event.printStartEpoch e) = false)
    (hpa : ∀ q, p (Event.printAvgTrainLoss q) = false)
    (hpv : ∀ q, p (Event.printAvgValLoss q) = false)
    (hpl : p Event.plotSave = false)
    (hsc : ∀ e q, p (Event.schedulerStep e q) = false)
    (hsv : ∀ r f, p (Event.saveCheckpoint r f) = false) :
    ∀ (k e : Nat) (m : TorchModel P),
      ((trainLoopAux env a kinds k e m).1).countP p = 0 := by
  have hrm : ∀ (ck : CritKind) (m : TorchModel P) (loader : Loader B) (t v : Bool)
      (s : Option String),
      ((run_model (env.criterion ck) (env.optStepF a.optimizer) m loader t v s).2.1).countP
        p = 0 := by
    intro ck m loader t v s
    refine List.countP_eq_zero.2 (fun ev hev => ?_)
    rw [hbatch ev (run_model_events _ _ _ _ _ _ _ ev hev)]
    simp
  intro k
  induction k with
  | zero => intro e m; rfl
  | succ k ih =>
    intro e m
    simp only [trainLoopAux]
    cases hT : (run_model (env.criterion kinds.1) (env.optStepF a.optimizer) m
        env.train_loader true a.verbose a.seq).2.2 with
    | error err =>
      simp [List.countP_append, List.countP_cons, hps, hrm]
    | ok trainLoss =>
      cases hV : (run_model (env.criterion kinds.2) (env.optStepF a.optimizer)
          (run_model (env.criterion kinds.1) (env.optStepF a.optimizer) m
            env.train_loader true a.verbose a.seq).1
          env.valid_loader false false a.seq).2.2 with
      | error err =>
        simp [List.countP_append, List.countP_cons, hps, hpa, hrm]
      | ok valLoss =>
        have hrest := ih (e + 1) ((run_model (env.criterion kinds.2)
          (env.optStepF a.optimizer)
          (run_model (env.criterion kinds.1) (env.optStepF a.optimizer) m
            env.train_loader true a.verbose a.seq).1
          env.valid_loader false false a.seq).1)
        simp only [List.countP_append, List.countP_cons, List.countP_nil, hps, hpa,
          hpv, hsc, hsv, hrm, hrest]
        split <;> simp_all [List.countP_cons, List.countP_nil, hpl]

/-! ## `epochConcat` and block-filter lemmas -/

/-- Filtering distributes over the per-epoch concatenation. -/
lemma epochConcat_filter (p : Event → Bool) (f : Nat → List Event) :
    ∀ (k e : Nat),
      (epochConcat f e k).filter p = epochConcat (fun i => (f i).filter p) e k := by
  intro k
  induction k with
  | zero => intro e; rfl
  | succ k ih => intro e; simp only [epochConcat, List.filter_append, ih]

/-- A concatenation of one-element blocks is a `map` over the epoch range. -/
lemma epochConcat_singleton (g : Nat → Event) :
    ∀ (k e : Nat), epochConcat (fun i => [g i]) e k = (List.range' e k).map g := by
  intro k
  induction k with
  | zero => intro e; rfl
  | succ k ih =>
    intro e
    simp only [epochConcat, ih, List.range'_succ, List.map_cons, List.singleton_append]

/-- Batch events are not scheduler steps. -/
lemma batch_not_sched (ev : Event) (h : isBatchEvent ev = true) : isSchedStep ev = false := by
  cases ev <;> simp_all [isBatchEvent, isSchedStep]

/-- Batch events are not checkpoint saves. -/
lemma batch_not_save (ev : Event) (h : isBatchEvent ev = true) : isSaveCkpt ev = false := by
  cases ev <;> simp_all [isBatchEvent, isSaveCkpt]

/-- Batch events are not model constructions. -/
lemma batch_not_constructModel (ev : Event) (h : isBatchEvent ev = true) :
    isConstructModel ev = false := by
  cases ev <;> simp_all [isBatchEvent, isConstructModel]

/-- Batch events are not optimizer constructions. -/
lemma batch_not_constructOpt (ev : Event) (h : isBatchEvent ev = true) :
    isConstructOpt ev = false := by
  cases ev <;> simp_all [isBatchEvent, isConstructOpt]

/-- A `run_model` trace filtered by a predicate false on batch events is empty. -/
lemma run_model_filter_nil {P B : Type} (crit : P → B → ℚ) (optF : P → ℚ → P)
    (m : TorchModel P) (loader : Loader B) (t v : Bool) (s : Option String)
    (p : Event → Bool) (hp : ∀ ev, isBatchEvent ev = true → p ev = false) :
    ((run_model crit optF m loader t v s).2.1).filter p = [] := by
  refine List.filter_eq_nil.2 (fun ev hev => ?_)
  rw [hp ev (run_model_events _ _ _ _ _ _ _ ev hev)]
  simp

/-- Each epoch block contains exactly one scheduler step: the one driven by
that epoch's validation loss. -/
lemma epochBlock_filter_sched {P B : Type} (env : Env P B) (a : Args) (e : Nat) :
    (epochBlock env a e).filter isSchedStep =
      [Event.schedulerStep e (epochValLoss env a e)] := by
  have h1 : (trainPassTrace env a e).filter isSchedStep = [] :=
    run_model_filter_nil _ _ _ _ _ _ _ _ batch_not_sched
  have h2 : (validPassTrace env a e).filter isSchedStep = [] :=
    run_model_filter_nil _ _ _ _ _ _ _ _ batch_not_sched
  simp only [epochBlock, List.filter_append, h1, h2]
  split <;> simp [isSchedStep]

/-- Each epoch block contains exactly one checkpoint save: that epoch's. -/
lemma epochBlock_filter_save {P B : Type} (env : Env P B) (a : Args) (e : Nat) :
    (epochBlock env a e).filter isSaveCkpt =
      [Event.saveCheckpoint a.rundir (ckptName env a e)] := by
  have h1 : (trainPassTrace env a e).filter isSaveCkpt = [] :=
    run_model_filter_nil _ _ _ _ _ _ _ _ batch_not_save
  have h2 : (validPassTrace env a e).filter isSaveCkpt = [] :=
    run_model_filter_nil _ _ _ _ _ _ _ _ batch_not_save
  simp only [epochBlock, List.filter_append, h1, h2]
  split <;> simp [isSaveCkpt]

/-! ## Characterisation of `train` -/

/-- With an unsupported model name, `train` raises its `ValueError` before
any other action. -/
lemma train_err_model {P B : Type} (env : Env P B) (a : Args)
    (hm : a.model ∉ env.model_dict) :
    train env a =
      ([Event.loadData],
        some (PyError.valueError (a.model ++ " model not supported"))) := by
  simp only [train, hm, if_false, ite_false, if_neg]

/-- With a supported model but unequal class counts, `train` fails the
assertion before constructing the model. -/
lemma train_err_counts {P B : Type} (env : Env P B) (a : Args)
    (hm : a.model ∈ env.model_dict) (hc : ¬ countsEq env) :
    train env a =
      ([Event.loadData],
        some (PyError.assertionError "Different number of classes in data splits")) := by
  simp only [train, hm, hc, if_true, ite_true, if_false, ite_false]

/-- With a supported model, equal class counts but an unsupported optimizer,
`train` raises its optimizer `ValueError` after constructing the model but
before constructing any optimizer. -/
lemma train_err_opt {P B : Type} (env : Env P B) (a : Args)
    (hm : a.model ∈ env.model_dict) (hc : countsEq env)
    (ho : a.optimizer ∉ optimizerKeys) :
    train env a =
      ([Event.loadData,
        Event.constructModel a.model env.train_loader.dataset.num_classes,
        Event.printNumClasses env.train_loader.dataset.num_classes,
        Event.modelCuda,
        Event.selectCriterion (critKinds a).1 (critKinds a).2],
        some (PyError.valueError (a.optimizer ++ " optimizer not supported"))) := by
  have ho' : (applySeq a).optimizer ∉ optimizerKeys := by
    rw [applySeq_optimizer]; exact ho
  simp only [train, hm, hc, ho, ho', if_true, ite_true, if_false, ite_false,
    applySeq_model, applySeq_optimizer, critKinds_applySeq, List.cons_append,
    List.nil_append]

/-- The freshly constructed model is the epoch-0 model. -/
lemma epochModel_zero {P B : Type} (env : Env P B) (a : Args) :
    epochModel env a 0 =
      { params := env.init_params, hidden := env.init_hidden0, training := true } := rfl

/-- With all checks passing, `train`'s outcome is the loop's outcome after
the construction preamble. -/
lemma train_success {P B : Type} (env : Env P B) (a : Args)
    (hm : a.model ∈ env.model_dict) (hc : countsEq env)
    (ho : a.optimizer ∈ optimizerKeys) :
    train env a =
      ([Event.loadData,
        Event.constructModel a.model env.train_loader.dataset.num_classes,
        Event.printNumClasses env.train_loader.dataset.num_classes,
        Event.modelCuda,
        Event.selectCriterion (critKinds a).1 (critKinds a).2,
        Event.constructOptimizer a.optimizer,
        Event.constructScheduler]
        ++ (trainLoopAux env (applySeq a) (critKinds (applySeq a)) a.epochs.toNat 0
            (epochModel env a 0)).1,
       (trainLoopAux env (applySeq a) (critKinds (applySeq a)) a.epochs.toNat 0
            (epochModel env a 0)).2) := by
  have ho' : (applySeq a).optimizer ∈ optimizerKeys := by
    rw [applySeq_optimizer]; exact ho
  simp only [train, hm, hc, ho, ho', if_true, ite_true, applySeq_epochs]
  rw [← epochModel_zero env a]
  simp only [applySeq_model, applySeq_optimizer, critKinds_applySeq,
    List.cons_append, List.nil_append]

/-- With all checks passing and non-empty train/valid loaders, `train`
completes without error and its trace is the preamble followed by the
per-epoch blocks. -/
lemma train_success_trace {P B : Type} (env : Env P B) (a : Args)
    (hm : a.model ∈ env.model_dict) (hc : countsEq env)
    (ho : a.optimizer ∈ optimizerKeys)
    (hT : env.train_loader.batches ≠ []) (hV : env.valid_loader.batches ≠ []) :
    train env a =
      ([Event.loadData,
        Event.constructModel a.model env.train_loader.dataset.num_classes,
        Event.printNumClasses env.train_loader.dataset.num_classes,
        Event.modelCuda,
        Event.selectCriterion (critKinds a).1 (critKinds a).2,
        Event.constructOptimizer a.optimizer,
        Event.constructScheduler]
        ++ epochConcat (epochBlock env a) 0 a.epochs.toNat, none) := by
  rw [train_success env a hm hc ho, trainLoopAux_spec env a hT hV a.epochs.toNat 0]

/-- Pointwise-equal block functions give equal concatenations. -/
lemma epochConcat_congr {f g : Nat → List Event} (h : ∀ i, f i = g i) :
    ∀ (k e : Nat), epochConcat f e k = epochConcat g e k := by
  intro k
  induction k with
  | zero => intro e; rfl
  | succ k ih => intro e; simp only [epochConcat, h, ih]

/-- A model construction happens exactly when the registry check and the
class-count assertion pass, and then exactly once. -/
lemma train_countP_constructModel {P B : Type} (env : Env P B) (a : Args) :
    ((train env a).1).countP isConstructModel =
      if a.model ∈ env.model_dict ∧ countsEq env then 1 else 0 := by
  by_cases hm : a.model ∈ env.model_dict
  · by_cases hc : countsEq env
    · by_cases ho : a.optimizer ∈ optimizerKeys
      · rw [train_success env a hm hc ho]
        have hloop := trainLoopAux_countP_zero env (applySeq a) (critKinds (applySeq a))
          isConstructModel batch_not_constructModel (fun _ => rfl) (fun _ => rfl)
          (fun _ => rfl) rfl (fun _ _ => rfl) (fun _ _ => rfl) a.epochs.toNat 0
          (epochModel env a 0)
        simp [List.countP_append, List.countP_cons, List.countP_nil, hloop,
          isConstructModel, hm, hc]
      · rw [train_err_opt env a hm hc ho]
        simp [List.countP_cons, List.countP_nil, isConstructModel, hm, hc]
    · rw [train_err_counts env a hm hc]
      simp [List.countP_cons, List.countP_nil, isConstructModel, hc]
  · rw [train_err_model env a hm]
    simp [List.countP_cons, List.countP_nil, isConstructModel, hm]

/-- An optimizer construction happens exactly when the registry check, the
assertion and the optimizer-table check all pass, and then exactly once. -/
lemma train_countP_constructOpt {P B : Type} (env : Env P B) (a : Args) :
    ((train env a).1).countP isConstructOpt =
      if a.model ∈ env.model_dict ∧ countsEq env ∧ a.optimizer ∈ optimizerKeys
      then 1 else 0 := by
  by_cases hm : a.model ∈ env.model_dict
  · by_cases hc : countsEq env
    · by_cases ho : a.optimizer ∈ optimizerKeys
      · rw [train_success env a hm hc ho]
        have hloop := trainLoopAux_countP_zero env (applySeq a) (critKinds (applySeq a))
          isConstructOpt batch_not_constructOpt (fun _ => rfl) (fun _ => rfl)
          (fun _ => rfl) rfl (fun _ _ => rfl) (fun _ _ => rfl) a.epochs.toNat 0
          (epochModel env a 0)
        simp [List.countP_append, List.countP_cons, List.countP_nil, hloop,
          isConstructOpt, hm, hc, ho]
      · rw [train_err_opt env a hm hc ho]
        simp [List.countP_cons, List.countP_nil, isConstructOpt, ho]
    · rw [train_err_counts env a hm hc]
      simp [List.countP_cons, List.countP_nil, isConstructOpt, hc]
  · rw [train_err_model env a hm]
    simp [List.countP_cons, List.countP_nil, isConstructOpt, hm]

/-- `train` raises a `ValueError` exactly for an unsupported model name, or
for an unsupported optimizer name once the assertion has passed. -/
lemma train_valueError_iff {P B : Type} (env : Env P B) (a : Args) :
    isValueErrorRes (train env a).2 = true ↔
      (a.model ∉ env.model_dict ∨ (countsEq env ∧ a.optimizer ∉ optimizerKeys)) := by
  by_cases hm : a.model ∈ env.model_dict
  · by_cases hc : countsEq env
    · by_cases ho : a.optimizer ∈ optimizerKeys
      · rw [train_success env a hm hc ho]
        rcases trainLoopAux_err env (applySeq a) (critKinds (applySeq a))
            a.epochs.toNat 0 (epochModel env a 0) with h | h <;>
          simp [h, isValueErrorRes, hm, hc, ho]
      · rw [train_err_opt env a hm hc ho]
        simp [isValueErrorRes, hc, ho]
    · rw [train_err_counts env a hm hc]
      simp [isValueErrorRes, hm, hc]
  · rw [train_err_model env a hm]
    simp [isValueErrorRes, hm]

/-- `train` raises the class-count `AssertionError` exactly when the model
check passes and the (train, valid, test) class counts are not all equal. -/
lemma train_assert_iff {P B : Type} (env : Env P B) (a : Args)
    (hm : a.model ∈ env.model_dict) :
    (train env a).2 =
        some (PyError.assertionError "Different number of classes in data splits") ↔
      ¬ countsEq env := by
  by_cases hc : countsEq env
  · by_cases ho : a.optimizer ∈ optimizerKeys
    · rw [train_success env a hm hc ho]
      rcases trainLoopAux_err env (applySeq a) (critKinds (applySeq a))
          a.epochs.toNat 0 (epochModel env a 0) with h | h <;>
        simp [h, hc]
    · rw [train_err_opt env a hm hc ho]
      simp [hc]
  · rw [train_err_counts env a hm hc]
    simp [hc]

/-- `train` raises an explicit error (a `ValueError` or the assertion)
exactly when the model check, the assertion or the optimizer check fails. -/
lemma train_explicit_iff {P B : Type} (env : Env P B) (a : Args) :
    isExplicitError (train env a).2 = true ↔
      (a.model ∉ env.model_dict ∨ ¬ countsEq env ∨ a.optimizer ∉ optimizerKeys) := by
  by_cases hm : a.model ∈ env.model_dict
  · by_cases hc : countsEq env
    · by_cases ho : a.optimizer ∈ optimizerKeys
      · rw [train_success env a hm hc ho]
        rcases trainLoopAux_err env (applySeq a) (critKinds (applySeq a))
            a.epochs.toNat 0 (epochModel env a 0) with h | h <;>
          simp [h, isExplicitError, hm, hc, ho]
      · rw [train_err_opt env a hm hc ho]
        simp [isExplicitError, ho]
    · rw [train_err_counts env a hm hc]
      simp [isExplicitError, hc]
  · rw [train_err_model env a hm]
    simp [isExplicitError, hm]

/-! ## Characterisation of `__main__` -/

/-- The error result of the script: the multiview `ValueError` when
`--view all` was passed, otherwise whatever `train` produces. -/
lemma mainScript_err {P B : Type} (env : Env P B) (a : Args) :
    (mainScript env a).2 =
      if a.view = "all"
      then some (PyError.valueError "Multiview not yet implemented for train script")
      else (train env {a with verbose := false}).2 := by
  by_cases hv : a.view = "all" <;> simp [mainScript, hv]

/-! ## Claim theorems -/

/-- C1 (amended): `train` raises a `ValueError` iff the configuration names
an unsupported model architecture, or the class-count assertion passes and
the configuration names an unsupported optimizer (when the model is
supported but the class counts differ, an `AssertionError` pre-empts the
optimizer `ValueError`); no model is ever constructed when the model name
is unsupported, and no optimizer is ever constructed when the optimizer
name is unsupported. -/
theorem train_valueError_characterization {P B : Type} (env : Env P B) (a : Args) :
    (isValueErrorRes (train env a).2 = true ↔
      (a.model ∉ env.model_dict ∨ (countsEq env ∧ a.optimizer ∉ optimizerKeys))) ∧
    ((train env a).1).countP isConstructModel =
      (if a.model ∈ env.model_dict ∧ countsEq env then 1 else 0) ∧
    ((train env a).1).countP isConstructOpt =
      (if a.model ∈ env.model_dict ∧ countsEq env ∧ a.optimizer ∈ optimizerKeys
       then 1 else 0) :=
  ⟨train_valueError_iff env a, train_countP_constructModel env a,
    train_countP_constructOpt env a⟩

/-- C1 (counterexample to the claim as stated): with a supported model,
unequal class counts and the unsupported optimizer name `sgd`, `train`
raises the `AssertionError`, not a `ValueError` — so "raises a `ValueError`
iff the model or the optimizer is unsupported" fails. -/
theorem train_valueError_missed_optimizer_case :
    ({argsBase with optimizer := "sgd"} : Args).optimizer ∉ optimizerKeys ∧
    (train {envBase with test_loader := loaderOf 3 []}
        {argsBase with optimizer := "sgd"}).2 =
      some (PyError.assertionError "Different number of classes in data splits") ∧
    isValueErrorRes (train {envBase with test_loader := loaderOf 3 []}
        {argsBase with optimizer := "sgd"}).2 = false := by
  decide

/-- C2 (amended): given a supported model name, the assertion fails — with
message "Different number of classes in data splits" — exactly when the
train, valid and test splits do not all report the same `num_classes`; the
`rad` split is not part of the chained comparison. -/
theorem train_assert_characterization {P B : Type} (env : Env P B) (a : Args)
    (hm : a.model ∈ env.model_dict) :
    ((train env a).2 =
        some (PyError.assertionError "Different number of classes in data splits") ↔
      ¬ countsEq env) :=
  train_assert_iff env a hm

/-- C2 witness: the characterisation applied to the concrete environment. -/
theorem train_assert_characterization_witness :
    ((train envBase argsBase).2 =
        some (PyError.assertionError "Different number of classes in data splits") ↔
      ¬ countsEq envBase) :=
  train_assert_characterization envBase argsBase (by decide)

/-- C2 (counterexample to the claim as stated): when the `rad` split reports
five classes while train, valid and test report two, two splits disagree on
`num_classes` yet the assertion does not fail. -/
theorem train_assert_ignores_rad_loader :
    ({envBase with rad_loader := loaderOf 5 []} : Env ℚ ℚ).rad_loader.dataset.num_classes ≠
        envBase.train_loader.dataset.num_classes ∧
    isAssertionErrorRes (train {envBase with rad_loader := loaderOf 5 []} argsBase).2 =
      false := by
  decide

/-- C3: with all checks passing, non-empty train/valid loaders and a
non-negative epoch count, `train` completes without error and its trace
after the construction preamble is exactly `args.epochs` per-epoch blocks,
each consisting in order of the training pass, the validation pass, the
scheduler step driven by that epoch's validation loss, and that epoch's
checkpoint save; the scheduler is stepped exactly once per epoch. -/
theorem train_epoch_loop_structure {P B : Type} (env : Env P B) (a : Args)
    (hm : a.model ∈ env.model_dict) (hc : countsEq env)
    (ho : a.optimizer ∈ optimizerKeys)
    (hT : env.train_loader.batches ≠ []) (hV : env.valid_loader.batches ≠ [])
    (he : 0 ≤ a.epochs) :
    (train env a).2 = none ∧
    ((a.epochs.toNat : Int) = a.epochs) ∧
    (train env a).1 =
      [Event.loadData,
       Event.constructModel a.model env.train_loader.dataset.num_classes,
       Event.printNumClasses env.train_loader.dataset.num_classes,
       Event.modelCuda,
       Event.selectCriterion (critKinds a).1 (critKinds a).2,
       Event.constructOptimizer a.optimizer,
       Event.constructScheduler]
      ++ epochConcat (fun e =>
           [Event.printStartEpoch e] ++ trainPassTrace env a e
             ++ [Event.printAvgTrainLoss (epochTrainLoss env a e)]
             ++ validPassTrace env a e
             ++ [Event.printAvgValLoss (epochValLoss env a e)]
             ++ (if a.plot then [Event.plotSave] else [])
             ++ [Event.schedulerStep e (epochValLoss env a e),
                 Event.saveCheckpoint a.rundir (ckptName env a e)]) 0 a.epochs.toNat ∧
    ((train env a).1).countP isSchedStep = a.epochs.toNat := by
  have hts := train_success_trace env a hm hc ho hT hV
  refine ⟨?_, Int.toNat_of_nonneg he, ?_, ?_⟩
  · rw [hts]
  · rw [hts]; rfl
  · rw [hts]
    have hloop : List.countP isSchedStep (epochConcat (epochBlock env a) 0 a.epochs.toNat)
        = a.epochs.toNat := by
      rw [List.countP_eq_length_filter, epochConcat_filter,
        epochConcat_congr (fun i => epochBlock_filter_sched env a i) a.epochs.toNat 0,
        epochConcat_singleton]
      simp
    have hpre : List.countP isSchedStep [Event.loadData,
        Event.constructModel a.model env.train_loader.dataset.num_classes,
        Event.printNumClasses env.train_loader.dataset.num_classes, Event.modelCuda,
        Event.selectCriterion (critKinds a).1 (critKinds a).2,
        Event.constructOptimizer a.optimizer, Event.constructScheduler] = 0 := rfl
    simp only [List.countP_append]
    rw [hpre, hloop]
    omega

/-- C3 witness: the concrete two-epoch run completes without error. -/
theorem train_epoch_loop_structure_witness : (train envBase argsBase).2 = none :=
  (train_epoch_loop_structure envBase argsBase (by decide) (by decide) (by decide)
    (by decide) (by decide) (by decide)).1

/-- C4: under the same conditions, exactly one checkpoint per epoch is
written into the run directory — unconditionally, whether or not the
validation loss improved — and its file name is
`val{val_loss}_train{train_loss}_epoch{epoch_number}` built from that
epoch's validation loss, training loss and (1-based) epoch number. -/
theorem train_checkpoint_per_epoch {P B : Type} (env : Env P B) (a : Args)
    (hm : a.model ∈ env.model_dict) (hc : countsEq env)
    (ho : a.optimizer ∈ optimizerKeys)
    (hT : env.train_loader.batches ≠ []) (hV : env.valid_loader.batches ≠ [])
    (he : 0 ≤ a.epochs) :
    (train env a).1.filter isSaveCkpt =
      (List.range a.epochs.toNat).map (fun e =>
        Event.saveCheckpoint a.rundir
          ("val" ++ toString (epochValLoss env a e) ++ "_train"
            ++ toString (epochTrainLoss env a e) ++ "_epoch" ++ toString (e + 1))) ∧
    ((a.epochs.toNat : Int) = a.epochs) := by
  refine ⟨?_, Int.toNat_of_nonneg he⟩
  rw [train_success_trace env a hm hc ho hT hV]
  have hloop : (epochConcat (epochBlock env a) 0 a.epochs.toNat).filter isSaveCkpt =
      (List.range' 0 a.epochs.toNat).map (fun i =>
        Event.saveCheckpoint a.rundir (ckptName env a i)) := by
    rw [epochConcat_filter, epochConcat_congr (fun i => epochBlock_filter_save env a i)
      a.epochs.toNat 0, epochConcat_singleton]
  simp only [List.filter_append, hloop, List.range_eq_range']
  rfl

/-- C4 witness: the checkpoint-save events of the concrete two-epoch run. -/
theorem train_checkpoint_per_epoch_witness :
    (train envBase argsBase).1.filter isSaveCkpt =
      (List.range argsBase.epochs.toNat).map (fun e =>
        Event.saveCheckpoint argsBase.rundir
          ("val" ++ toString (epochValLoss envBase argsBase e) ++ "_train"
            ++ toString (epochTrainLoss envBase argsBase e) ++ "_epoch"
            ++ toString (e + 1))) :=
  (train_checkpoint_per_epoch envBase argsBase (by decide) (by decide) (by decide)
    (by decide) (by decide) (by decide)).1

/-- C5 witness: the mean theorem applied to a concrete two-batch loader. -/
theorem run_model_returns_mean_witness :
    (run_model critW optW modelW (loaderOf 2 [1, 2]) true false none).2.2 =
      Except.ok ((((run_model critW optW modelW
            (loaderOf 2 [1, 2]) true false none).2.1).filterMap batchLossVal).sum /
        ((((run_model critW optW modelW
            (loaderOf 2 [1, 2]) true false none).2.1).filterMap batchLossVal).length : ℚ)) :=
  (run_model_returns_mean critW optW modelW (loaderOf 2 [1, 2]) true false none
    (by decide)).1

/-- C7 (amended): the script raises an explicit error (a `raise ValueError`
or the failed assertion) exactly when `--view all` was passed, the model
name is unsupported, the class counts differ, or the optimizer name is
unsupported — the `ValueError` for `--view all` in `__main__` is a third
explicit raise beyond the two the claim lists. -/
theorem script_explicit_error_characterization {P B : Type} (env : Env P B) (a : Args) :
    isExplicitError (mainScript env a).2 = true ↔
      (a.view = "all" ∨ a.model ∉ env.model_dict ∨ ¬ countsEq env ∨
        a.optimizer ∉ optimizerKeys) := by
  rw [mainScript_err]
  by_cases hv : a.view = "all"
  · simp [hv, isExplicitError]
  · rw [if_neg hv]
    rw [train_explicit_iff env {a with verbose := false}]
    simp [hv]

/-- C7 (counterexample to the claim as stated): with a supported model, a
supported optimizer and equal class counts, passing `--view all` still makes
the script raise a `ValueError`, so the explicit errors are not limited to
the two cases the claim lists. -/
theorem script_raises_on_view_all :
    ({argsBase with view := "all"} : Args).model ∈ envBase.model_dict ∧
    ({argsBase with view := "all"} : Args).optimizer ∈ optimizerKeys ∧
    countsEq envBase ∧
    (mainScript envBase {argsBase with view := "all"}).2 =
      some (PyError.valueError "Multiview not yet implemented for train script") := by
  decide

/-- C8: before `train` is called, the script writes `args.json` — the second
recorded action, right after seeding — containing every command-line
parameter of `get_parser` as a key/value pair, in parser order. -/
theorem script_writes_args_json_first {P B : Type} (env : Env P B) (a : Args) :
    (mainScript env a).1.take 2 =
      [Event.seedInit a.seed,
       Event.writeArgsJson (argsJson {a with verbose := false})] ∧
    (argsJson {a with verbose := false}).map Prod.fst = parserArgNames := by
  refine ⟨?_, rfl⟩
  by_cases hv : a.view = "all" <;> simp [mainScript, hv]

/-- C10: the `--verbose` flag has no observable effect: `__main__`
unconditionally overwrites `args.verbose` with `False` before anything else,
so two runs differing only in the `verbose` field produce identical traces
(including the persisted `args.json` and all console prints) and identical
outcomes. -/
theorem verbose_flag_noninterference {P B : Type} (env : Env P B) (a : Args)
    (v1 v2 : Bool) :
    mainScript env {a with verbose := v1} = mainScript env {a with verbose := v2} := rfl

end TrainToy
